import Mathlib

/-!
Verification development for the `enhanced_researcher.py` market-scanning
pipeline (file `trading-research/enhanced_researcher.py`, 1219 lines).

The relevant Python functions are shallowly embedded below.  Conventions:

* Python floats are modelled as `ℚ` (IEEE rounding of decimal literals is
  ignored; where IEEE division-by-zero / NaN behaviour matters it is made
  explicit in the embedding, with a comment at the spot).
* Python `round(x, n)` (banker's rounding, ties to even) is `pyRound x n`.
* a fallible Python expression (one that can raise `TypeError`) is embedded
  in `Except PyErr`.
* dictionaries built by the source are embedded as structures; a key whose
  value may be `None` becomes an `Option` field.
* dates are represented by their whole-day offset from "today" (`Int`), which
  is exactly the quantity the source computes via `(d - today).days`.
-/

/-- Python `TypeError` (the only exception class the embedded code raises). -/
inductive PyErr where
  | typeError
deriving DecidableEq, Repr

/-- Round a rational to the nearest integer, ties to even: the behaviour of
Python's builtin `round` (banker's rounding). -/
def roundHalfEven (q : ℚ) : ℤ :=
  let f : ℤ := ⌊q⌋
  let r : ℚ := q - (f : ℚ)
  if r < 1/2 then f
  else if 1/2 < r then f + 1
  else if 2 ∣ f then f else f + 1

/-- Python `round(q, n)` on our rational model of floats. -/
def pyRound (q : ℚ) (n : ℕ) : ℚ :=
  (roundHalfEven (q * 10 ^ n) : ℚ) / 10 ^ n

/-- Python `int(q)`: truncation toward zero. -/
def pyTrunc (q : ℚ) : ℤ :=
  if 0 ≤ q then ⌊q⌋ else -⌊-q⌋

/-- Python `x > c` where `x` may be `None` (raises `TypeError` on `None`),
as in `rsi > 50` inside `calculate_entry_exit`. -/
def pyGT : Option ℚ → ℚ → Except PyErr Bool
  | none, _ => .error .typeError
  | some v, c => .ok (decide (c < v))

/-- Python `x < c` where `x` may be `None` (raises `TypeError` on `None`). -/
def pyLT : Option ℚ → ℚ → Except PyErr Bool
  | none, _ => .error .typeError
  | some v, c => .ok (decide (v < c))

-- A journal entry as built by `_build_basic_research_journal_entry`
-- (lines 375-412): `created_at` is the report's `generated_at` timestamp,
-- the remaining fields are opaque to the persistence logic.  Timestamps are
-- modelled as `Nat` (ISO strings compare consistently with time order).

/-- One entry of `research_journal.json`. -/
structure JournalEntry where
  created_at : Nat
  title : String
  summary : String
deriving DecidableEq, Repr

/-- The list-manipulation core of `append_research_journal`
(lines 596-608): de-dupe on timestamp against the head entry (replace in
place), otherwise prepend, then truncate to the newest `maxEntries`
(default 30, `RESEARCH_JOURNAL_MAX_ENTRIES`).  The optional AI note
(lines 539-594) only mutates the new entry's payload and is opaque here. -/
def append_research_journal (maxEntries : Nat) (entry : JournalEntry)
    (entries : List JournalEntry) : List JournalEntry :=
  (match entries with
   | [] => [entry]
   | e0 :: rest =>
     if e0.created_at = entry.created_at then entry :: rest
     else entry :: e0 :: rest).take maxEntries

/-- The `created_at` of the journal's head entry, if any. -/
def journalHeadStamp (entries : List JournalEntry) : Option Nat :=
  entries.head?.map (·.created_at)

/-- How many entries of the journal carry a given timestamp. -/
def countStamp (entries : List JournalEntry) (t : Nat) : Nat :=
  (entries.filter (fun e => e.created_at = t)).length

/-- Newest-first ordering of a journal: timestamps weakly decrease. -/
def newestFirst (entries : List JournalEntry) : Prop :=
  entries.Pairwise (fun a b => b.created_at ≤ a.created_at)

instance (entries : List JournalEntry) : Decidable (newestFirst entries) :=
  List.instDecidablePairwise entries

/-- A sequence of Journal Persister invocations, oldest first. -/
def journalRuns (maxEntries : Nat) (runs : List JournalEntry)
    (entries : List JournalEntry) : List JournalEntry :=
  runs.foldl (fun j e => append_research_journal maxEntries e j) entries

theorem countStamp_eq_zero {entries : List JournalEntry} {t : Nat}
    (h : ∀ e ∈ entries, e.created_at ≠ t) : countStamp entries t = 0 := by
  simp only [countStamp, List.length_eq_zero, List.filter_eq_nil_iff]
  intro e he
  simpa using h e he

theorem countStamp_cons (e : JournalEntry) (l : List JournalEntry) (t : Nat) :
    countStamp (e :: l) t =
      (if e.created_at = t then 1 else 0) + countStamp l t := by
  by_cases h : e.created_at = t <;>
    simp [countStamp, List.filter_cons, h, Nat.add_comm]

/-- Elements of the persisted journal come from the new entry or the old list. -/
theorem append_research_journal_mem (maxEntries : Nat) (entry : JournalEntry)
    (entries : List JournalEntry) :
    ∀ x ∈ append_research_journal maxEntries entry entries,
      x = entry ∨ x ∈ entries := by
  intro x hx
  unfold append_research_journal at hx
  have hx' := List.mem_of_mem_take hx
  match entries with
  | [] => simpa using hx'
  | e0 :: rest =>
    by_cases h : e0.created_at = entry.created_at
    · simp only [h, if_pos rfl] at hx'
      rcases List.mem_cons.mp hx' with h1 | h1
      · exact Or.inl h1
      · exact Or.inr (List.mem_cons_of_mem _ h1)
    · simp only [if_neg h] at hx'
      rcases List.mem_cons.mp hx' with h1 | h1
      · exact Or.inl h1
      · exact Or.inr h1

/-- One persister step keeps the journal newest-first when the incoming
entry is at least as new as everything stored. -/
theorem append_research_journal_sorted (maxEntries : Nat)
    (entry : JournalEntry) (entries : List JournalEntry)
    (hs : newestFirst entries)
    (hnew : ∀ x ∈ entries, x.created_at ≤ entry.created_at) :
    newestFirst (append_research_journal maxEntries entry entries) := by
  unfold append_research_journal
  apply List.Pairwise.sublist (List.take_sublist _ _)
  match entries with
  | [] => simp [newestFirst]
  | e0 :: rest =>
    by_cases h : e0.created_at = entry.created_at
    · simp only [if_pos h]
      rcases (List.pairwise_cons.mp hs) with ⟨h0, hrest⟩
      exact List.pairwise_cons.mpr ⟨fun b hb => h ▸ h0 b hb, hrest⟩
    · simp only [if_neg h]
      refine List.pairwise_cons.mpr ⟨?_, hs⟩
      intro b hb
      exact hnew b hb

/-- Journal length is capped by one persister step. -/
theorem append_research_journal_length (maxEntries : Nat)
    (entry : JournalEntry) (entries : List JournalEntry) :
    (append_research_journal maxEntries entry entries).length ≤ maxEntries := by
  unfold append_research_journal
  exact List.length_take_le _ _

/-- C3 — the replace/prepend dedup invariant of `append_research_journal`
(lines 596-608) together with the idempotent re-run consequence: if the head
entry carries the same timestamp the new entry replaces it in place, any
other journal is prepended to; and two consecutive runs carrying the same
timestamp leave exactly one entry with that timestamp (provided the journal
held none before and at least one entry is retained). -/
theorem journal_dedup_c3 (maxEntries : Nat) (e1 e2 : JournalEntry)
    (entries : List JournalEntry) :
    (∀ h rest, entries = h :: rest → h.created_at = e1.created_at →
      append_research_journal maxEntries e1 entries = (e1 :: rest).take maxEntries) ∧
    (journalHeadStamp entries ≠ some e1.created_at →
      append_research_journal maxEntries e1 entries = (e1 :: entries).take maxEntries) ∧
    (1 ≤ maxEntries → e2.created_at = e1.created_at →
      (∀ e ∈ entries, e.created_at ≠ e1.created_at) →
      countStamp
        (append_research_journal maxEntries e2
          (append_research_journal maxEntries e1 entries)) e1.created_at = 1) := by
  refine ⟨?_, ?_, ?_⟩
  · intro h rest hsplit hstamp
    subst hsplit
    simp [append_research_journal, hstamp]
  · intro hne
    match entries with
    | [] => simp [append_research_journal]
    | e0 :: rest =>
      have h0 : e0.created_at ≠ e1.created_at := by
        intro h
        exact hne (by simp [journalHeadStamp, h])
      simp [append_research_journal, h0]
  · intro hmax hsame hfresh
    obtain ⟨m, rfl⟩ : ∃ m, maxEntries = m + 1 := ⟨maxEntries - 1, by omega⟩
    -- after the first run the head is `e1`, so the second run replaces it.
    have hfirst :
        append_research_journal (m + 1) e1 entries = e1 :: entries.take m := by
      match entries with
      | [] => simp [append_research_journal]
      | e0 :: rest =>
        have h0 : e0.created_at ≠ e1.created_at := hfresh e0 (by simp)
        simp [append_research_journal, h0]
    rw [hfirst]
    have hsecond :
        append_research_journal (m + 1) e2 (e1 :: entries.take m) =
          e2 :: (entries.take m).take m := by
      simp [append_research_journal, hsame]
    rw [hsecond, countStamp_cons, if_pos hsame]
    have hz : countStamp ((entries.take m).take m) e1.created_at = 0 :=
      countStamp_eq_zero fun e he =>
        hfresh e (List.mem_of_mem_take (List.mem_of_mem_take he))
    omega

/-- Witness for C3 at a concrete journal. -/
theorem journal_dedup_c3_witness :
    append_research_journal 30 ⟨5, "t", "s"⟩ [⟨3, "a", "b"⟩] =
      [⟨5, "t", "s"⟩, ⟨3, "a", "b"⟩] ∧
    countStamp
      (append_research_journal 30 ⟨5, "u", "v"⟩
        (append_research_journal 30 ⟨5, "t", "s"⟩ [⟨3, "a", "b"⟩])) 5 = 1 := by
  have h := journal_dedup_c3 30 ⟨5, "t", "s"⟩ ⟨5, "u", "v"⟩ [⟨3, "a", "b"⟩]
  refine ⟨?_, ?_⟩
  · have := h.2.1 (by decide)
    simpa using this
  · exact h.2.2 (by decide) (by decide) (by decide)

/-- C9 (counterexample) — the claim asserts the newest-first ordering holds
after a run from *any* starting journal state; but the persister never sorts,
so one run on an out-of-order journal leaves it out of order. -/
theorem journal_sorted_c9_counterexample :
    ¬ newestFirst
        (append_research_journal 30 ⟨3, "n", ""⟩
          [⟨1, "a", ""⟩, ⟨2, "b", ""⟩]) := by
  decide

/-- Helper: an invocation sequence of positive length caps the journal. -/
theorem journalRuns_cons_length (maxEntries : Nat) :
    ∀ (rest : List JournalEntry) (r : JournalEntry)
      (entries : List JournalEntry),
      (journalRuns maxEntries (r :: rest) entries).length ≤ maxEntries := by
  intro rest
  induction rest with
  | nil =>
    intro r entries
    simpa [journalRuns] using
      append_research_journal_length maxEntries r entries
  | cons r2 rest2 ih =>
    intro r entries
    simpa [journalRuns] using
      ih r2 (append_research_journal maxEntries r entries)

/-- Helper: the run sequence keeps the journal newest-first under the
monotone-timestamp side conditions. -/
theorem journalRuns_sorted (maxEntries : Nat) :
    ∀ (runs entries : List JournalEntry),
      newestFirst entries →
      List.Pairwise (fun a b : JournalEntry => a.created_at ≤ b.created_at) runs →
      (∀ e ∈ entries, ∀ r ∈ runs, e.created_at ≤ r.created_at) →
      newestFirst (journalRuns maxEntries runs entries) := by
  intro runs
  induction runs with
  | nil =>
    intro entries hs _ _
    simpa [journalRuns] using hs
  | cons r rest ih =>
    intro entries hs hruns hle
    rcases List.pairwise_cons.mp hruns with ⟨hr, hrest⟩
    have hstep : newestFirst (append_research_journal maxEntries r entries) :=
      append_research_journal_sorted maxEntries r entries hs
        (fun x hx => hle x hx r (by simp))
    have hle' : ∀ e ∈ append_research_journal maxEntries r entries,
        ∀ r' ∈ rest, e.created_at ≤ r'.created_at := by
      intro e he r' hr'
      rcases append_research_journal_mem maxEntries r entries e he with h | h
      · exact h ▸ hr r' hr'
      · exact hle e h r' (List.mem_cons_of_mem _ hr')
    simpa [journalRuns] using
      ih (append_research_journal maxEntries r entries) hstep hrest hle'

/-- C9 (amended) — after any positive number of runs, the journal never
exceeds the configured maximum entry count; and the newest-first ordering is
preserved provided the starting journal is already newest-first and the run
timestamps are non-decreasing and no older than everything stored (which is
how the persister is invoked: `created_at` is the run's fresh
`generated_at`). -/
theorem journal_invariant_c9 (maxEntries : Nat)
    (entries runs : List JournalEntry) :
    (runs ≠ [] → (journalRuns maxEntries runs entries).length ≤ maxEntries) ∧
    (newestFirst entries →
      List.Pairwise (fun a b : JournalEntry => a.created_at ≤ b.created_at) runs →
      (∀ e ∈ entries, ∀ r ∈ runs, e.created_at ≤ r.created_at) →
      newestFirst (journalRuns maxEntries runs entries)) := by
  constructor
  · intro hne
    match runs with
    | [] => exact absurd rfl hne
    | r :: rest => exact journalRuns_cons_length maxEntries rest r entries
  · intro hs hruns hle
    exact journalRuns_sorted maxEntries runs entries hs hruns hle

/-- Witness for C9 (amended) at a concrete journal and run sequence. -/
theorem journal_invariant_c9_witness :
    (journalRuns 2 [⟨6, "x", ""⟩, ⟨7, "y", ""⟩] [⟨5, "a", ""⟩, ⟨3, "b", ""⟩]).length ≤ 2 ∧
    newestFirst (journalRuns 2 [⟨6, "x", ""⟩, ⟨7, "y", ""⟩] [⟨5, "a", ""⟩, ⟨3, "b", ""⟩]) := by
  have h := journal_invariant_c9 2 [⟨5, "a", ""⟩, ⟨3, "b", ""⟩]
    [⟨6, "x", ""⟩, ⟨7, "y", ""⟩]
  exact ⟨h.1 (by decide), h.2 (by decide) (by decide) (by decide)⟩

-- ===================================================================
-- Signal Extractor data model
-- ===================================================================

/-- One row of an option-chain table (`calls` / `puts` dataframes):
`strike`, `lastPrice`, `impliedVolatility`, `volume`, `openInterest`.
`volume`/`openInterest` are `none` when the provider reports NaN
(the source guards them with `pd.notna`). -/
structure OptionRow where
  strike : ℚ
  lastPrice : ℚ
  impliedVolatility : ℚ
  volume : Option Int
  openInterest : Option Int
deriving DecidableEq, Repr

/-- A suggested affordable strike (lines 677-698). -/
structure Suggestion where
  strike : ℚ
  premium : ℚ
  iv : ℚ
  volume : Int
  oi : Int
  break_even : ℚ
deriving DecidableEq, Repr

/-- The dict returned by `get_options_data` (lines 700-710).  The
`expiration` date is represented by its day offset from today (the source
keeps the `YYYY-MM-DD` string and separately stores `dte`; with the offset
representation the two coincide). -/
structure OptionsData where
  expiration : Int
  dte : Int
  iv_avg : ℚ
  expected_move_pct : ℚ
  expected_move_dollars : ℚ
  call_suggestion : Option Suggestion
  put_suggestion : Option Suggestion
  atm_call_price : Option ℚ
  atm_put_price : Option ℚ
deriving DecidableEq, Repr

/-- One daily OHLCV bar (the source reads `Close`, `Volume`, `Low`, `High`). -/
structure Bar where
  close : ℚ
  volume : ℚ
  low : ℚ
  high : ℚ
deriving DecidableEq, Repr

/-- Best-effort earnings-calendar lookup result (lines 807-824): the
earnings date (day offset) and the whole-day distance computed by
`(ed_dt - pd.Timestamp.now()).days`; both are set together or not at all. -/
structure EarningsInfo where
  date : Int
  days : Int
deriving DecidableEq, Repr

/-- A news record after the source's field extraction (lines 833-846). -/
structure NewsItem where
  title : String
  publisher : String
  link : String
deriving DecidableEq, Repr

/-- The per-ticker view of the market-data provider (`yf.Ticker`): price
history, option expirations (day offsets from today, in listing order), the
chain tables per expiration, the earnings calendar and recent news. -/
structure StockHandle where
  hist : List Bar
  optionsDates : List Int
  chainCalls : Int → List OptionRow
  chainPuts : Int → List OptionRow
  earnings : Option EarningsInfo
  news : List NewsItem

/-- The run configuration keys used by the embedded functions (all present
after `DEFAULT_CONFIG` merging, lines 59-67). -/
structure Config where
  max_stock_price : ℚ
  max_option_premium : ℚ
  min_score : ℚ
deriving DecidableEq, Repr

/-- Expiration selection (lines 618-633): scan the first 5 listed
expirations; `nearest` is the first one at least 1 day out, `weekly` the
first one 5-10 days out; the target is `weekly_exp or nearest_exp`. -/
def targetExpiration (dates : List Int) : Option Int :=
  let scan := (dates.take 5).foldl
    (fun (acc : Option Int × Option Int) d =>
      if 1 ≤ d then
        ((if acc.1 = none then some d else acc.1),
         (if 5 ≤ d ∧ d ≤ 10 ∧ acc.2 = none then some d else acc.2))
      else acc)
    (none, none)
  match scan.2 with
  | some w => some w
  | none => scan.1

/-- The first row whose strike is nearest to `atm`
(`(strikes - atm).abs().argsort()[:1]`, lines 648-649). -/
def atmRow (atm : ℚ) (rows : List OptionRow) : Option OptionRow :=
  rows.foldl
    (fun acc r =>
      match acc with
      | none => some r
      | some b => if |r.strike - atm| < |b.strike - atm| then some r else acc)
    none

/-- Call suggestion record (lines 677-684): `break_even = strike + premium`. -/
def mkCallSuggestion (r : OptionRow) : Suggestion :=
  { strike := r.strike
    premium := pyRound r.lastPrice 2
    iv := pyRound (r.impliedVolatility * 100) 1
    volume := r.volume.getD 0
    oi := r.openInterest.getD 0
    break_even := pyRound (r.strike + r.lastPrice) 2 }

/-- Put suggestion record (lines 691-698): `break_even = strike - premium`. -/
def mkPutSuggestion (r : OptionRow) : Suggestion :=
  { strike := r.strike
    premium := pyRound r.lastPrice 2
    iv := pyRound (r.impliedVolatility * 100) 1
    volume := r.volume.getD 0
    oi := r.openInterest.getD 0
    break_even := pyRound (r.strike - r.lastPrice) 2 }

/-- Insert into a sorted row list (stable). -/
def insertRow (le : OptionRow → OptionRow → Bool) (r : OptionRow) :
    List OptionRow → List OptionRow
  | [] => [r]
  | x :: xs => if le r x then r :: x :: xs else x :: insertRow le r xs

/-- Model of `DataFrame.sort_values` on an option table (insertion sort; ordering of
equal strikes is unspecified by the source's quicksort and immaterial). -/
def sortRows (le : OptionRow → OptionRow → Bool)
    (rows : List OptionRow) : List OptionRow :=
  rows.foldr (insertRow le) []

/-- Embedding of `get_options_data` (lines 611-714).  `sqrtFn` is the numeric oracle for
`np.sqrt` (the embedding is parametric in it; every theorem below holds for
an arbitrary square-root oracle). -/
def get_options_data (sqrtFn : ℚ → ℚ) (stock : StockHandle) (price : ℚ)
    (config : Config) : Option OptionsData :=
  if stock.optionsDates = [] then none
  else
    match targetExpiration stock.optionsDates with
    | none => none
    | some texp =>
      let calls := stock.chainCalls texp
      let puts := stock.chainPuts texp
      if calls = [] ∨ puts = [] then none
      else
        let atm : ℚ := (roundHalfEven price : ℤ)
        let callAtm := atmRow atm calls
        let putAtm := atmRow atm puts
        let callIv := (callAtm.map (·.impliedVolatility)).getD 0
        let putIv := (putAtm.map (·.impliedVolatility)).getD 0
        let avgIv := (callIv + putIv) / 2
        let dte := texp
        let expectedMovePct := avgIv * sqrtFn ((dte : ℚ) / 365) * 100
        let expectedMoveDollars := price * (expectedMovePct / 100)
        let affordableCalls :=
          sortRows (fun a b => decide (a.strike ≤ b.strike))
            (calls.filter (fun r => r.lastPrice ≤ config.max_option_premium))
        let affordablePuts :=
          sortRows (fun a b => decide (b.strike ≤ a.strike))
            (puts.filter (fun r => r.lastPrice ≤ config.max_option_premium))
        let callSuggestion :=
          ((affordableCalls.filter (fun r => price ≤ r.strike)).head?).map
            mkCallSuggestion
        let putSuggestion :=
          ((affordablePuts.filter (fun r => r.strike ≤ price)).head?).map
            mkPutSuggestion
        some
          { expiration := texp
            dte := dte
            iv_avg := pyRound (avgIv * 100) 1
            expected_move_pct := pyRound expectedMovePct 1
            expected_move_dollars := pyRound expectedMoveDollars 2
            call_suggestion := callSuggestion
            put_suggestion := putSuggestion
            atm_call_price := callAtm.map (fun r => pyRound r.lastPrice 2)
            atm_put_price := putAtm.map (fun r => pyRound r.lastPrice 2) }

/-- The at-the-money average implied volatility the source computes at the
chosen expiration (lines 645-654). -/
def atmAvgIv (stock : StockHandle) (price : ℚ) (texp : Int) : ℚ :=
  let atm : ℚ := (roundHalfEven price : ℤ)
  (((atmRow atm (stock.chainCalls texp)).map (·.impliedVolatility)).getD 0 +
   ((atmRow atm (stock.chainPuts texp)).map (·.impliedVolatility)).getD 0) / 2

/-- A concrete chain whose chosen expiration has a non-empty call table and
an empty put table. -/
def c7Stock : StockHandle :=
  { hist := []
    optionsDates := [7]
    chainCalls := fun _ => [⟨10, 1, 1/2, some 5, some 5⟩]
    chainPuts := fun _ => []
    earnings := none
    news := [] }

/-- C7 (counterexample) — the claim says a null `OptionsSnapshot` is
returned only when the chosen expiration's call and put tables are *both*
empty; but with a populated call table and an empty put table the source
(line 641: `if calls.empty or puts.empty`) still returns `None`. -/
theorem options_null_c7_counterexample :
    get_options_data (fun q => q) c7Stock 10 ⟨50, 2, 2⟩ = none ∧
    c7Stock.optionsDates ≠ [] ∧
    targetExpiration c7Stock.optionsDates = some 7 ∧
    ¬ (c7Stock.chainCalls 7 = [] ∧ c7Stock.chainPuts 7 = []) := by
  refine ⟨by decide, by decide, by decide, by decide⟩

/-- C7 (amended) — `get_options_data` returns a null snapshot exactly when
the chain is empty (no listed expirations, or no future expiration among
the first 5), or *either* the call table or the put table at the chosen
expiration is empty; otherwise it is populated. -/
theorem options_null_c7_amended (sqrtFn : ℚ → ℚ) (stock : StockHandle)
    (price : ℚ) (config : Config) :
    get_options_data sqrtFn stock price config = none ↔
      (stock.optionsDates = [] ∨
       targetExpiration stock.optionsDates = none ∨
       ∃ texp, targetExpiration stock.optionsDates = some texp ∧
         (stock.chainCalls texp = [] ∨ stock.chainPuts texp = [])) := by
  unfold get_options_data
  by_cases h1 : stock.optionsDates = []
  · simp [h1]
  · rw [if_neg h1]
    cases htarget : targetExpiration stock.optionsDates with
    | none => simp [htarget, h1]
    | some texp =>
      by_cases h2 : stock.chainCalls texp = [] ∨ stock.chainPuts texp = []
      · simp [htarget, h1, h2]
      · simp [htarget, h1, h2]

/-- C8 — in every populated snapshot, the stored expected-move dollar value
is `price × avg IV × √(DTE/365)` (rounded to cents for storage, line 705),
where `avg IV` is the mean of the at-the-money call/put implied
volatilities and `DTE` the whole-day count to the chosen expiration; and
the stored `expected_move_pct` is that dollar quantity divided by price,
in percent (rounded to one decimal, line 704). -/
theorem expected_move_c8 (sqrtFn : ℚ → ℚ) (stock : StockHandle) (price : ℚ)
    (config : Config) (snap : OptionsData) (texp : Int)
    (h : get_options_data sqrtFn stock price config = some snap)
    (ht : targetExpiration stock.optionsDates = some texp)
    (hp : price ≠ 0) :
    snap.dte = texp ∧
    snap.expected_move_dollars =
      pyRound (price * atmAvgIv stock price texp * sqrtFn ((texp : ℚ) / 365)) 2 ∧
    snap.expected_move_pct =
      pyRound
        ((price * atmAvgIv stock price texp * sqrtFn ((texp : ℚ) / 365)) / price * 100)
        1 := by
  unfold get_options_data at h
  by_cases h1 : stock.optionsDates = []
  · rw [if_pos h1] at h
    cases h
  · rw [if_neg h1, ht] at h
    by_cases h2 : stock.chainCalls texp = [] ∨ stock.chainPuts texp = []
    · simp only [if_pos h2] at h
      exact Option.noConfusion h
    · simp only [if_neg h2] at h
      have hsnap := (Option.some_inj.mp h).symm
      subst hsnap
      refine ⟨rfl, ?_, ?_⟩
      · show pyRound _ 2 = pyRound _ 2
        congr 1
        simp only [atmAvgIv]
        ring
      · show pyRound _ 1 = pyRound _ 1
        congr 1
        simp only [atmAvgIv]
        field_simp
        ring

/-- A concrete chain with an at-the-money quote on both sides. -/
def c8Stock : StockHandle :=
  { hist := []
    optionsDates := [7]
    chainCalls := fun _ => [⟨10, 1, 1/2, none, none⟩]
    chainPuts := fun _ => [⟨10, 2, 1/4, none, none⟩]
    earnings := none
    news := [] }

/-- The snapshot `get_options_data` produces on `c8Stock` at price 10 with a
unit square-root oracle. -/
def c8Snap : OptionsData :=
  { expiration := 7
    dte := 7
    iv_avg := 75/2
    expected_move_pct := 75/2
    expected_move_dollars := 15/4
    call_suggestion := some ⟨10, 1, 50, 0, 0, 11⟩
    put_suggestion := some ⟨10, 2, 25, 0, 0, 8⟩
    atm_call_price := some 1
    atm_put_price := some 2 }

/-- Witness for C8 at the concrete chain `c8Stock`. -/
theorem expected_move_c8_witness :
    (get_options_data (fun _ => 1) c8Stock 10 ⟨50, 2, 2⟩ = some c8Snap ∧
     targetExpiration c8Stock.optionsDates = some 7 ∧ (10 : ℚ) ≠ 0) ∧
    (c8Snap.dte = 7 ∧
     c8Snap.expected_move_dollars = pyRound (10 * atmAvgIv c8Stock 10 7 * 1) 2 ∧
     c8Snap.expected_move_pct =
       pyRound (10 * atmAvgIv c8Stock 10 7 * 1 / 10 * 100) 1) := by
  have h1 : get_options_data (fun _ => (1 : ℚ)) c8Stock 10 ⟨50, 2, 2⟩ =
      some c8Snap := by
    norm_num [get_options_data, c8Stock, c8Snap, targetExpiration, atmRow,
      sortRows, insertRow, mkCallSuggestion, mkPutSuggestion, pyRound,
      roundHalfEven]
  have h2 : targetExpiration c8Stock.optionsDates = some 7 := by decide
  have h3 := expected_move_c8 (fun _ => 1) c8Stock 10 ⟨50, 2, 2⟩ c8Snap 7 h1 h2
    (by norm_num)
  exact ⟨⟨h1, h2, by norm_num⟩, by simpa using h3⟩

-- ===================================================================
-- TickerSignal, scorer and trade-idea generator
-- ===================================================================

/-- The `ai_sentiment` dict: `score`, `summary`, `confidence` (catalysts unused
by the embedded functions). -/
structure AiSentiment where
  score : ℚ
  summary : Option String
  confidence : String
deriving DecidableEq, Repr

/-- One reason tag appended by `score_opportunity`.  Each constructor stands
for one distinct f-string pattern of the source (lines 892-970); the string
formatting itself (emoji, `:.1f` display rounding, summary slicing) is
abstracted into the constructor and its parameters. -/
inductive Reason where
  | earningsSoon (d : Int)
  | earningsNear (d : Int)
  | earningsToday
  | volumeSurge (v : ℚ)
  | momentumBig (up : Bool) (amt : ℚ)
  | momentumMed (up : Bool) (amt : ℚ)
  | overboughtRsi (r : ℚ)
  | oversoldRsi (r : ℚ)
  | highIv (iv : ℚ)
  | lowIv (iv : ℚ)
  | affordableOptions
  | aiStrong (up : Bool)
  | aiSentiment (up : Bool)
deriving DecidableEq, Repr

/-- The dict returned by `calculate_entry_exit` (lines 752-760). -/
structure EntryExit where
  direction : String
  stock_entry : ℚ
  stock_target : ℚ
  stock_stop : ℚ
  option_entry : String
  option_target : String
  option_stop : String
deriving DecidableEq, Repr

/-- The dict returned by `generate_trade_idea` (lines 1020-1027). -/
structure TradeIdea where
  direction : String
  bias : String
  expiry : String
  reasons : List Reason
  entry_exit : EntryExit
  suggested_option : Option Suggestion
deriving DecidableEq, Repr

/-- The per-ticker dict built by `get_stock_data` (lines 854-870).  The
`trade_idea` field models the dict key of that name, which is absent
(`none`) until the orchestrator stores a generated idea into the dict
(line 1099 / line 1133). -/
structure TickerSignal where
  ticker : String
  price : ℚ
  change_pct : ℚ
  volume : Int
  vol_surge : ℚ
  momentum_5d : ℚ
  rsi : Option ℚ
  trend : String
  support : ℚ
  resistance : ℚ
  earnings_date : Option Int
  days_to_earnings : Option Int
  options : Option OptionsData
  news : List NewsItem
  ai_sentiment : AiSentiment
  trade_idea : Option TradeIdea
deriving DecidableEq, Repr

/-- Embedding of `calculate_rsi` (lines 877-889): rolling-mean RSI over the last
`period` deltas.  In the source, `rs = gain / loss` is float division:
`loss == 0` yields `inf` (so `rsi == 100`) when `gain > 0`, and NaN (so
`None` is returned) when the last `period` deltas are all zero; both IEEE
escapes are spelled out explicitly here. -/
def calculate_rsi (prices : List ℚ) (period : Nat) : Option ℚ :=
  if prices.length < period + 1 then none
  else
    let deltas := (prices.zip prices.tail).map (fun p => p.2 - p.1)
    let window := deltas.drop (deltas.length - period)
    let gain := (window.map (fun d => if 0 < d then d else 0)).sum / (period : ℚ)
    let loss := (window.map (fun d => if d < 0 then -d else 0)).sum / (period : ℚ)
    if loss = 0 then (if gain = 0 then none else some 100)
    else some (100 - 100 / (1 + gain / loss))

-- `score_opportunity` (lines 892-970) is a chain of seven independent
-- `score += ...; reasons.append(...)` blocks; each block is one step
-- function below, and the function is their composition.

/-- Earnings-catalyst block (lines 897-908). -/
def earningsStep (data : TickerSignal) (acc : ℚ × List Reason) :
    ℚ × List Reason :=
  match data.days_to_earnings with
  | none => acc
  | some d =>
    if 1 ≤ d ∧ d ≤ 3 then (acc.1 + 3, acc.2 ++ [Reason.earningsSoon d])
    else if 4 ≤ d ∧ d ≤ 7 then (acc.1 + 2, acc.2 ++ [Reason.earningsNear d])
    else if d = 0 then (acc.1 + 1, acc.2 ++ [Reason.earningsToday])
    else acc

/-- Volume-surge block (lines 910-917). -/
def volumeStep (data : TickerSignal) (acc : ℚ × List Reason) :
    ℚ × List Reason :=
  let v := data.vol_surge
  if 2 ≤ v then (acc.1 + 2, acc.2 ++ [Reason.volumeSurge v])
  else if 3/2 ≤ v then (acc.1 + 1, acc.2 ++ [Reason.volumeSurge v])
  else acc

/-- Momentum block (lines 919-928). -/
def momentumStep (data : TickerSignal) (acc : ℚ × List Reason) :
    ℚ × List Reason :=
  let m := data.momentum_5d
  if 10 ≤ |m| then (acc.1 + 2, acc.2 ++ [Reason.momentumBig (decide (0 < m)) |m|])
  else if 5 ≤ |m| then (acc.1 + 1, acc.2 ++ [Reason.momentumMed (decide (0 < m)) |m|])
  else acc

/-- RSI-extremes block (lines 930-938).  `if rsi:` is Python truthiness:
it skips both a missing RSI and an RSI equal to 0.0. -/
def rsiStep (data : TickerSignal) (acc : ℚ × List Reason) :
    ℚ × List Reason :=
  match data.rsi with
  | none => acc
  | some r =>
    if r = 0 then acc
    else if 70 ≤ r then (acc.1 + 1, acc.2 ++ [Reason.overboughtRsi r])
    else if r ≤ 30 then (acc.1 + 3/2, acc.2 ++ [Reason.oversoldRsi r])
    else acc

/-- Implied-volatility block (lines 940-949). -/
def ivStep (data : TickerSignal) (acc : ℚ × List Reason) :
    ℚ × List Reason :=
  match data.options with
  | none => acc
  | some o =>
    let iv := o.iv_avg
    if 80 ≤ iv then (acc.1 + 1, acc.2 ++ [Reason.highIv iv])
    else if iv ≤ 30 ∧ 0 < iv then (acc.1 + 3/2, acc.2 ++ [Reason.lowIv iv])
    else acc

/-- Affordable-options bonus block (lines 951-956). -/
def affordStep (data : TickerSignal) (acc : ℚ × List Reason) :
    ℚ × List Reason :=
  match data.options with
  | none => acc
  | some o =>
    if o.call_suggestion.isSome ∨ o.put_suggestion.isSome then
      (acc.1 + 1/2, acc.2 ++ [Reason.affordableOptions])
    else acc

/-- AI-sentiment block (lines 958-968). -/
def sentimentStep (data : TickerSignal) (acc : ℚ × List Reason) :
    ℚ × List Reason :=
  let s := data.ai_sentiment.score
  if 3 ≤ |s| then (acc.1 + 3/2, acc.2 ++ [Reason.aiStrong (decide (0 < s))])
  else if 2 ≤ |s| then (acc.1 + 1, acc.2 ++ [Reason.aiSentiment (decide (0 < s))])
  else acc

/-- Embedding of `score_opportunity` (lines 892-970): the seven blocks applied in source
order to `score = 0, reasons = []`.  (Its `config` parameter is accepted and
never read, as in the source.) -/
def score_opportunity (data : TickerSignal) (config : Config) :
    ℚ × List Reason :=
  sentimentStep data
    (affordStep data
      (ivStep data
        (rsiStep data
          (momentumStep data
            (volumeStep data
              (earningsStep data (0, [])))))))

/-- Embedding of `get_stock_data` (lines 763-874): fetch the 1-month history, reject
short histories and prices over the configured cap, derive the indicators,
and assemble the per-ticker dict.  The per-ticker `try/except` wrapper is
the `Option` result; provider lookups (history, calendar, chain, news) come
in through the `StockHandle`. -/
def get_stock_data (sqrtFn : ℚ → ℚ) (ticker : String) (stock : StockHandle)
    (config : Config) : Option TickerSignal :=
  let hist := stock.hist
  if hist.length < 5 then none
  else
    let current := hist.getLastD ⟨0, 0, 0, 0⟩
    let prev := if 1 < hist.length then hist.getD (hist.length - 2) current
                else current
    let price := current.close
    if config.max_stock_price < price then none
    else
      -- `(price - prev) / prev` is numpy float division: a zero prior close
      -- yields inf there and 0 in ℚ; no claim touches that value.
      let change_pct := (price - prev.close) / prev.close * 100
      let closes := hist.map (·.close)
      let volumes := hist.map (·.volume)
      let avg_volume := volumes.sum / (volumes.length : ℚ)
      let vol_surge := if 0 < avg_volume then current.volume / avg_volume else 1
      let p5 := (hist.getD (hist.length - 5) current).close
      let momentum_5d := (price - p5) / p5 * 100
      let rsi := calculate_rsi closes 14
      let tail10 := closes.drop (closes.length - 10)
      let sma10 := tail10.sum / (tail10.length : ℚ)
      let sma20 :=
        if 20 ≤ hist.length then
          let tail20 := closes.drop (closes.length - 20)
          tail20.sum / (tail20.length : ℚ)
        else sma10
      let trend :=
        if sma10 < price ∧ sma20 < sma10 then "bullish"
        else if price < sma10 ∧ sma10 < sma20 then "bearish"
        else "neutral"
      let recent_low := (((hist.drop (hist.length - 10)).map (·.low)).min?).getD 0
      let recent_high := (((hist.drop (hist.length - 10)).map (·.high)).max?).getD 0
      let options_data := get_options_data sqrtFn stock price config
      let news_items := ((stock.news.take 5).filter (fun n => n.title ≠ "")).take 3
      some
        { ticker := ticker
          price := pyRound price 2
          change_pct := pyRound change_pct 2
          volume := pyTrunc current.volume
          vol_surge := pyRound vol_surge 2
          momentum_5d := pyRound momentum_5d 2
          -- `round(rsi, 1) if rsi else None`: truthiness maps both a missing
          -- RSI and an RSI of exactly 0.0 to `None`.
          rsi := match rsi with
                 | none => none
                 | some r => if r = 0 then none else some (pyRound r 1)
          trend := trend
          support := pyRound recent_low 2
          resistance := pyRound recent_high 2
          earnings_date := stock.earnings.map (·.date)
          days_to_earnings := stock.earnings.map (·.days)
          options := options_data
          news := news_items
          ai_sentiment := ⟨0, none, "pending"⟩
          trade_idea := none }

/-- Embedding of `calculate_entry_exit` (lines 717-760).  The direction it prices to is
read from `data.get("trade_idea", {}).get("direction", "CALL")` — the
*previous* trade idea stored in the dict, defaulting to `"CALL"`, not the
direction the caller just computed.  The CALL/PUT branches compare `rsi`
against 50, which raises `TypeError` when `rsi` is `None`. -/
def calculate_entry_exit (data : TickerSignal) (options : Option OptionsData) :
    Except PyErr EntryExit :=
  let price := data.price
  let rsi := data.rsi
  let expected_move := match options with
                       | some o => o.expected_move_pct
                       | none => 5
  let direction := match data.trade_idea with
                   | some ti => ti.direction
                   | none => "CALL"
  if direction = "CALL" then
    match pyGT rsi 50 with
    | .error e => .error e
    | .ok gt50 =>
      let entry_pct : ℚ := if gt50 then -3/2 else -1/2
      let exit_pct := expected_move * (7/10)
      let stop_pct := -expected_move * (1/2)
      .ok
        { direction := direction
          stock_entry := pyRound (price * (1 + entry_pct / 100)) 2
          stock_target := pyRound (price * (1 + exit_pct / 100)) 2
          stock_stop := pyRound (price * (1 + stop_pct / 100)) 2
          option_entry := "At or below suggested premium"
          option_target := "50-100% gain on premium"
          option_stop := "50% loss on premium" }
  else if direction = "PUT" then
    match pyLT rsi 50 with
    | .error e => .error e
    | .ok lt50 =>
      let entry_pct : ℚ := if lt50 then 3/2 else 1/2
      let exit_pct := -expected_move * (7/10)
      let stop_pct := expected_move * (1/2)
      .ok
        { direction := direction
          stock_entry := pyRound (price * (1 + entry_pct / 100)) 2
          stock_target := pyRound (price * (1 + exit_pct / 100)) 2
          stock_stop := pyRound (price * (1 + stop_pct / 100)) 2
          option_entry := "At or below suggested premium"
          option_target := "50-100% gain on premium"
          option_stop := "50% loss on premium" }
  else
    .ok
      { direction := direction
        stock_entry := price
        stock_target := pyRound (price * (1 + expected_move / 100)) 2
        stock_stop := pyRound (price * (1 - expected_move / 200)) 2
        option_entry := "At or below suggested premium"
        option_target := "50-100% gain on premium"
        option_stop := "50% loss on premium" }

/-- The signed vote tally of `generate_trade_idea` (lines 981-994).
`if rsi and rsi < 35` is Python truthiness again: a missing or 0.0 RSI
casts no vote. -/
def tradeSignals (data : TickerSignal) : Nat × Nat :=
  let momentum := data.momentum_5d
  let aiScore := data.ai_sentiment.score
  let v1 : Nat × Nat :=
    if 3 < momentum then (1, 0) else if momentum < -3 then (0, 1) else (0, 0)
  let v2 : Nat × Nat :=
    if data.trend = "bullish" then (1, 0)
    else if data.trend = "bearish" then (0, 1) else (0, 0)
  let v3 : Nat × Nat :=
    if 0 < aiScore then (1, 0) else if aiScore < 0 then (0, 1) else (0, 0)
  let v4 : Nat × Nat :=
    match data.rsi with
    | none => (0, 0)
    | some r =>
      if r ≠ 0 ∧ r < 35 then (1, 0)
      else if r ≠ 0 ∧ 65 < r then (0, 1) else (0, 0)
  (v1.1 + v2.1 + v3.1 + v4.1, v1.2 + v2.2 + v3.2 + v4.2)

/-- Direction/bias selection from the vote tally (lines 996-1004). -/
def tradeDirection (data : TickerSignal) : String × String :=
  let votes := tradeSignals data
  if votes.2 < votes.1 then ("CALL", "bullish")
  else if votes.1 < votes.2 then ("PUT", "bearish")
  else ("STRADDLE", "neutral")

/-- Expiry text from the selected options expiration (lines 1012-1015). -/
def expiryFromOptions (data : TickerSignal) : String :=
  match data.options with
  | some o => toString o.expiration ++ " (" ++ toString o.dte ++ " DTE)"
  | none => "1-2 weeks out"

/-- Expiry suggestion (lines 1007-1015); `if days_to_earnings and 1 <= ... <= 7`
(truthiness guard on 0 is redundant there, since the range excludes 0). -/
def expirySuggestion (data : TickerSignal) : String :=
  match data.days_to_earnings with
  | some d =>
    if d ≠ 0 ∧ 1 ≤ d ∧ d ≤ 7 then
      "Through earnings (" ++ toString (data.earnings_date.getD 0) ++ ")"
    else expiryFromOptions data
  | none => expiryFromOptions data

/-- Embedding of `generate_trade_idea` (lines 973-1027). -/
def generate_trade_idea (data : TickerSignal) (score : ℚ)
    (reasons : List Reason) : Except PyErr TradeIdea :=
  let dir := tradeDirection data
  let expiry := expirySuggestion data
  let options := data.options
  match calculate_entry_exit data options with
  | .error e => .error e
  | .ok ee =>
    .ok
      { direction := dir.1
        bias := dir.2
        expiry := expiry
        reasons := reasons
        entry_exit := ee
        suggested_option :=
          match options with
          | some o => if dir.1 = "CALL" then o.call_suggestion else o.put_suggestion
          | none => none }

-- ===================================================================
-- Concurrent Scan Orchestrator and Report Assembler
-- ===================================================================

/-- One accepted scan result: the mutated per-ticker dict (`data['score']`,
`data['reasons']`, `data['trade_idea']` added at lines 1097-1099). -/
structure ScoredResult where
  signal : TickerSignal
  score : ℚ
  reasons : List Reason
  trade_idea : TradeIdea
deriving DecidableEq, Repr

/-- One worker task of the scan loop (lines 1085-1102): fetch, score,
apply the `min_score` filter, generate the trade idea; any exception is
caught by the per-ticker handler and the ticker is dropped. -/
def processTicker (sqrtFn : ℚ → ℚ) (config : Config) (stock : StockHandle)
    (ticker : String) : Option ScoredResult :=
  match get_stock_data sqrtFn ticker stock config with
  | none => none
  | some data =>
    let scored := score_opportunity data config
    if config.min_score ≤ scored.1 then
      match generate_trade_idea data scored.1 scored.2 with
      | .error _ => none
      | .ok idea =>
        some { signal := { data with trade_idea := some idea }
               score := scored.1
               reasons := scored.2
               trade_idea := idea }
    else none

/-- The accumulated result set of `run_research` (lines 1075-1106),
sequentialized: batching and the 3-worker pool only affect completion
order, which the subsequent sort erases; the AI-enrichment stage
(lines 1111-1139) mutates entries of this list in place and never adds or
removes one, so membership is unaffected. -/
def run_research_results (sqrtFn : ℚ → ℚ) (config : Config)
    (market : String → StockHandle) (tickers : List String) :
    List ScoredResult :=
  tickers.filterMap (fun t => processTicker sqrtFn config (market t) t)

/-- The sort `results.sort(key=lambda x: x['score'], reverse=True)` of line 1109. -/
def sortResults (results : List ScoredResult) : List ScoredResult :=
  results.mergeSort (fun a b => decide (b.score ≤ a.score))

/-- Partition `earnings_plays` (line 1142): `r.get('days_to_earnings') and
0 <= r['days_to_earnings'] <= 7` — the truthiness guard drops both a
missing value and the value 0. -/
def earnings_plays (results : List ScoredResult) : List ScoredResult :=
  results.filter (fun r =>
    match r.signal.days_to_earnings with
    | some d => decide (d ≠ 0 ∧ 0 ≤ d ∧ d ≤ 7)
    | none => false)

/-- Partition `momentum_plays` (line 1143): `abs(momentum_5d) >= 5` and value-equality
exclusion against `earnings_plays`. -/
def momentum_plays (results : List ScoredResult) : List ScoredResult :=
  results.filter (fun r =>
    decide (5 ≤ |r.signal.momentum_5d| ∧ r ∉ earnings_plays results))

/-- Partition `oversold_plays` (line 1144): `r.get('rsi') and r['rsi'] <= 35` (same
truthiness guard) and exclusion against `earnings_plays`. -/
def oversold_plays (results : List ScoredResult) : List ScoredResult :=
  results.filter (fun r =>
    match r.signal.rsi with
    | some v => decide (v ≠ 0 ∧ v ≤ 35 ∧ r ∉ earnings_plays results)
    | none => false)

/-- The list `top_picks` (line 1183): the first 10 of the score-sorted results. -/
def top_picks (results : List ScoredResult) : List ScoredResult :=
  (sortResults results).take 10

/-- Helper: a successful fetch reports the ticker it was asked for. -/
theorem get_stock_data_ticker (f : ℚ → ℚ) (tk : String) (st : StockHandle)
    (cfg : Config) (d : TickerSignal)
    (h : get_stock_data f tk st cfg = some d) : d.ticker = tk := by
  simp only [get_stock_data] at h
  by_cases h5 : st.hist.length < 5
  · rw [if_pos h5] at h
    exact Option.noConfusion h
  · rw [if_neg h5] at h
    by_cases hp : cfg.max_stock_price < (st.hist.getLastD ⟨0, 0, 0, 0⟩).close
    · rw [if_pos hp] at h
      exact Option.noConfusion h
    · rw [if_neg hp] at h
      have hd := Option.some_inj.mp h
      subst hd
      rfl

/-- Helper: an accepted scan result carries the ticker of its task. -/
theorem processTicker_ticker (f : ℚ → ℚ) (cfg : Config) (st : StockHandle)
    (u : String) (r : ScoredResult)
    (h : processTicker f cfg st u = some r) : r.signal.ticker = u := by
  unfold processTicker at h
  cases hd : get_stock_data f u st cfg with
  | none =>
    simp only [hd] at h
    exact Option.noConfusion h
  | some data =>
    simp only [hd] at h
    split_ifs at h with hmin
    · cases hg : generate_trade_idea data
          (score_opportunity data cfg).1 (score_opportunity data cfg).2 with
      | error e =>
        simp only [hg] at h
        exact Option.noConfusion h
      | ok idea =>
        simp only [hg] at h
        have hr := Option.some_inj.mp h
        subst hr
        simpa using get_stock_data_ticker f u st cfg data hd

/-- C1 — if a ticker's latest close exceeds `max_stock_price`,
`get_stock_data` returns no signal for it (line 778), so the ticker appears
neither in the run's accumulated result set nor in any report list derived
from it (top picks and the three category partitions). -/
theorem price_filter_c1 (sqrtFn : ℚ → ℚ) (config : Config)
    (market : String → StockHandle) (tickers : List String) (t : String)
    (b : Bar)
    (hlast : (market t).hist.getLast? = some b)
    (hprice : config.max_stock_price < b.close) :
    get_stock_data sqrtFn t (market t) config = none ∧
    (∀ r ∈ run_research_results sqrtFn config market tickers,
      r.signal.ticker ≠ t) ∧
    (∀ r ∈ top_picks (run_research_results sqrtFn config market tickers),
      r.signal.ticker ≠ t) ∧
    (∀ r ∈ earnings_plays
        (sortResults (run_research_results sqrtFn config market tickers)),
      r.signal.ticker ≠ t) ∧
    (∀ r ∈ momentum_plays
        (sortResults (run_research_results sqrtFn config market tickers)),
      r.signal.ticker ≠ t) ∧
    (∀ r ∈ oversold_plays
        (sortResults (run_research_results sqrtFn config market tickers)),
      r.signal.ticker ≠ t) := by
  have hnone : get_stock_data sqrtFn t (market t) config = none := by
    by_cases h5 : (market t).hist.length < 5
    · simp [get_stock_data, h5]
    · have hcur : (market t).hist.getLastD ⟨0, 0, 0, 0⟩ = b := by
        rw [List.getLastD_eq_getLast?, hlast]
        rfl
      simp only [get_stock_data, if_neg h5, hcur]
      rw [if_pos hprice]
  have hproc : processTicker sqrtFn config (market t) t = none := by
    unfold processTicker
    rw [hnone]
  have hres : ∀ r ∈ run_research_results sqrtFn config market tickers,
      r.signal.ticker ≠ t := by
    intro r hr
    obtain ⟨u, hu, hpu⟩ := List.mem_filterMap.mp hr
    by_cases hut : u = t
    · subst hut
      rw [hproc] at hpu
      exact Option.noConfusion hpu
    · rw [processTicker_ticker sqrtFn config (market u) u r hpu]
      exact hut
  have hsorted : ∀ r ∈ sortResults (run_research_results sqrtFn config market tickers),
      r.signal.ticker ≠ t := by
    intro r hr
    exact hres r (List.mem_mergeSort.mp hr)
  refine ⟨hnone, hres, ?_, ?_, ?_, ?_⟩
  · intro r hr
    exact hsorted r (List.mem_of_mem_take hr)
  · intro r hr
    exact hsorted r (List.mem_of_mem_filter hr)
  · intro r hr
    exact hsorted r (List.mem_of_mem_filter hr)
  · intro r hr
    exact hsorted r (List.mem_of_mem_filter hr)

/-- A ticker priced at 60 with `max_stock_price = 50`. -/
def c1Stock : StockHandle :=
  { hist := [⟨60, 100, 59, 61⟩, ⟨60, 100, 59, 61⟩, ⟨60, 100, 59, 61⟩,
             ⟨60, 100, 59, 61⟩, ⟨60, 100, 59, 61⟩]
    optionsDates := []
    chainCalls := fun _ => []
    chainPuts := fun _ => []
    earnings := none
    news := [] }

/-- Every ticker resolves to the overpriced `c1Stock`. -/
def c1Market : String → StockHandle := fun _ => c1Stock

/-- Witness for C1 at a concrete $60 ticker under a $50 cap. -/
theorem price_filter_c1_witness :
    get_stock_data (fun q => q) "X" (c1Market "X") ⟨50, 2, 0⟩ = none ∧
    (∀ r ∈ run_research_results (fun q => q) ⟨50, 2, 0⟩ c1Market ["X"],
      r.signal.ticker ≠ "X") := by
  have hlast : (c1Market "X").hist.getLast? = some ⟨60, 100, 59, 61⟩ := rfl
  have hprice : (⟨50, 2, 0⟩ : Config).max_stock_price < (60 : ℚ) := by norm_num
  have h := price_filter_c1 (fun q => q) ⟨50, 2, 0⟩ c1Market ["X"] "X"
    ⟨60, 100, 59, 61⟩ hlast hprice
  exact ⟨h.1, h.2.1⟩

-- ===================================================================
-- C2: the scorer against the spec's rule table (§4.2)
-- ===================================================================

/-- Score contribution of an optional rule firing. -/
def optScore : Option (ℚ × Reason) → ℚ
  | none => 0
  | some x => x.1

/-- Reason contribution of an optional rule firing. -/
def optReason : Option (ℚ × Reason) → List Reason
  | none => []
  | some x => [x.2]

/-- Sum of the contributions of the rules that fired. -/
def rulesScore (rules : List (Option (ℚ × Reason))) : ℚ :=
  ((rules.filterMap id).map (fun x => x.1)).sum

/-- One reason per fired rule, in rule order. -/
def rulesReasons (rules : List (Option (ℚ × Reason))) : List Reason :=
  (rules.filterMap id).map (fun x => x.2)

theorem rulesScore_nil : rulesScore [] = 0 := rfl

theorem rulesReasons_nil : rulesReasons [] = [] := rfl

theorem rulesScore_cons (o : Option (ℚ × Reason))
    (l : List (Option (ℚ × Reason))) :
    rulesScore (o :: l) = optScore o + rulesScore l := by
  cases o <;> simp [rulesScore, optScore, List.filterMap_cons]

theorem rulesReasons_cons (o : Option (ℚ × Reason))
    (l : List (Option (ℚ × Reason))) :
    rulesReasons (o :: l) = optReason o ++ rulesReasons l := by
  cases o <;> simp [rulesReasons, optReason, List.filterMap_cons]

/-- Earnings-proximity rule as claim C2 states it: +3 for 1-3 days out,
+2 for 4-7, +1 for exactly 0. -/
def earnRule (data : TickerSignal) : Option (ℚ × Reason) :=
  match data.days_to_earnings with
  | none => none
  | some d =>
    if 1 ≤ d ∧ d ≤ 3 then some (3, Reason.earningsSoon d)
    else if 4 ≤ d ∧ d ≤ 7 then some (2, Reason.earningsNear d)
    else if d = 0 then some (1, Reason.earningsToday)
    else none

/-- Volume-surge rule as claimed: +2 at ≥2.0x else +1 at ≥1.5x. -/
def volRule (data : TickerSignal) : Option (ℚ × Reason) :=
  let v := data.vol_surge
  if 2 ≤ v then some (2, Reason.volumeSurge v)
  else if 3/2 ≤ v then some (1, Reason.volumeSurge v)
  else none

/-- Momentum rule as claimed: +2 at |momentum| ≥ 10% else +1 at ≥ 5%. -/
def momRule (data : TickerSignal) : Option (ℚ × Reason) :=
  let m := data.momentum_5d
  if 10 ≤ |m| then some (2, Reason.momentumBig (decide (0 < m)) |m|)
  else if 5 ≤ |m| then some (1, Reason.momentumMed (decide (0 < m)) |m|)
  else none

/-- RSI rule exactly as claim C2 words it: +1 at RSI ≥ 70, +1.5 at
RSI ≤ 30 — with no further proviso, so an RSI of exactly 0 scores +1.5. -/
def rsiRuleClaim (data : TickerSignal) : Option (ℚ × Reason) :=
  match data.rsi with
  | none => none
  | some r =>
    if 70 ≤ r then some (1, Reason.overboughtRsi r)
    else if r ≤ 30 then some (3/2, Reason.oversoldRsi r)
    else none

/-- RSI rule as the code actually gates it (`if rsi:` truthiness): the rule
fires only for a present, non-zero RSI. -/
def rsiRuleGuarded (data : TickerSignal) : Option (ℚ × Reason) :=
  match data.rsi with
  | none => none
  | some r =>
    if r = 0 then none
    else if 70 ≤ r then some (1, Reason.overboughtRsi r)
    else if r ≤ 30 then some (3/2, Reason.oversoldRsi r)
    else none

/-- IV rule as claimed: +1 at avg IV ≥ 80%, +1.5 at 0 < IV ≤ 30%. -/
def ivRule (data : TickerSignal) : Option (ℚ × Reason) :=
  match data.options with
  | none => none
  | some o =>
    if 80 ≤ o.iv_avg then some (1, Reason.highIv o.iv_avg)
    else if o.iv_avg ≤ 30 ∧ 0 < o.iv_avg then some (3/2, Reason.lowIv o.iv_avg)
    else none

/-- Affordability rule as claimed: +0.5 when an affordable call or put
suggestion exists. -/
def affordRule (data : TickerSignal) : Option (ℚ × Reason) :=
  match data.options with
  | none => none
  | some o =>
    if o.call_suggestion.isSome ∨ o.put_suggestion.isSome then
      some (1/2, Reason.affordableOptions)
    else none

/-- Sentiment rule as claimed: +1.5 at |score| ≥ 3 else +1 at ≥ 2. -/
def sentRule (data : TickerSignal) : Option (ℚ × Reason) :=
  let s := data.ai_sentiment.score
  if 3 ≤ |s| then some (3/2, Reason.aiStrong (decide (0 < s)))
  else if 2 ≤ |s| then some (1, Reason.aiSentiment (decide (0 < s)))
  else none

/-- The §4.2 rule table in claim order, verbatim from the claim. -/
def claimRules (data : TickerSignal) : List (Option (ℚ × Reason)) :=
  [earnRule data, volRule data, momRule data, rsiRuleClaim data,
   ivRule data, affordRule data, sentRule data]

/-- The rule table with the RSI rule gated on a non-zero RSI (the amended
form of the claim). -/
def claimRulesAmended (data : TickerSignal) : List (Option (ℚ × Reason)) :=
  [earnRule data, volRule data, momRule data, rsiRuleGuarded data,
   ivRule data, affordRule data, sentRule data]

theorem earningsStep_eq (data : TickerSignal) (acc : ℚ × List Reason) :
    earningsStep data acc =
      (acc.1 + optScore (earnRule data), acc.2 ++ optReason (earnRule data)) := by
  unfold earningsStep earnRule
  cases data.days_to_earnings with
  | none => simp [optScore, optReason]
  | some d =>
    dsimp only
    split_ifs <;> simp [optScore, optReason]

theorem volumeStep_eq (data : TickerSignal) (acc : ℚ × List Reason) :
    volumeStep data acc =
      (acc.1 + optScore (volRule data), acc.2 ++ optReason (volRule data)) := by
  unfold volumeStep volRule
  dsimp only
  split_ifs <;> simp [optScore, optReason]

theorem momentumStep_eq (data : TickerSignal) (acc : ℚ × List Reason) :
    momentumStep data acc =
      (acc.1 + optScore (momRule data), acc.2 ++ optReason (momRule data)) := by
  unfold momentumStep momRule
  dsimp only
  split_ifs <;> simp [optScore, optReason]

theorem rsiStep_eq (data : TickerSignal) (acc : ℚ × List Reason) :
    rsiStep data acc =
      (acc.1 + optScore (rsiRuleGuarded data),
       acc.2 ++ optReason (rsiRuleGuarded data)) := by
  unfold rsiStep rsiRuleGuarded
  cases data.rsi with
  | none => simp [optScore, optReason]
  | some r =>
    dsimp only
    split_ifs <;> simp [optScore, optReason]

theorem ivStep_eq (data : TickerSignal) (acc : ℚ × List Reason) :
    ivStep data acc =
      (acc.1 + optScore (ivRule data), acc.2 ++ optReason (ivRule data)) := by
  unfold ivStep ivRule
  cases data.options with
  | none => simp [optScore, optReason]
  | some o =>
    dsimp only
    split_ifs <;> simp [optScore, optReason]

theorem affordStep_eq (data : TickerSignal) (acc : ℚ × List Reason) :
    affordStep data acc =
      (acc.1 + optScore (affordRule data),
       acc.2 ++ optReason (affordRule data)) := by
  unfold affordStep affordRule
  cases data.options with
  | none => simp [optScore, optReason]
  | some o =>
    dsimp only
    split_ifs <;> simp [optScore, optReason]

theorem sentimentStep_eq (data : TickerSignal) (acc : ℚ × List Reason) :
    sentimentStep data acc =
      (acc.1 + optScore (sentRule data), acc.2 ++ optReason (sentRule data)) := by
  unfold sentimentStep sentRule
  dsimp only
  split_ifs <;> simp [optScore, optReason]

/-- C2 (amended) — `score_opportunity` is a pure function of the signal
fields; its score is the sum, and its reasons the in-order tags, of exactly
the §4.2 rule contributions, with the RSI rule applying only when RSI is
present and non-zero (Python truthiness at line 932).  The `config`
argument is irrelevant, so determinism in the claim's sense is immediate. -/
theorem score_opportunity_c2_amended (data : TickerSignal) (config : Config) :
    score_opportunity data config =
      (rulesScore (claimRulesAmended data),
       rulesReasons (claimRulesAmended data)) := by
  unfold score_opportunity claimRulesAmended
  rw [earningsStep_eq, volumeStep_eq, momentumStep_eq, rsiStep_eq, ivStep_eq,
    affordStep_eq, sentimentStep_eq]
  simp only [rulesScore_cons, rulesReasons_cons, rulesScore_nil,
    rulesReasons_nil, Prod.mk.injEq]
  constructor
  · ring
  · simp [List.append_assoc]

/-- The score claimed by C2: sum of the §4.2 rule contributions verbatim. -/
def claimScore (data : TickerSignal) : ℚ :=
  rulesScore (claimRules data)

/-- The reasons list claimed by C2: one tag per fired rule, in order. -/
def claimReasons (data : TickerSignal) : List Reason :=
  rulesReasons (claimRules data)

/-- A signal whose stored RSI is exactly 0 (reachable: any raw RSI under
0.05 — e.g. 0.04 from a nearly monotone decline — rounds to a stored 0.0). -/
def c2Signal : TickerSignal :=
  { ticker := "Z"
    price := 10
    change_pct := 0
    volume := 100
    vol_surge := 1
    momentum_5d := 0
    rsi := some 0
    trend := "neutral"
    support := 9
    resistance := 11
    earnings_date := none
    days_to_earnings := none
    options := none
    news := []
    ai_sentiment := ⟨0, none, "pending"⟩
    trade_idea := none }

/-- C2 (counterexample) — at a signal with RSI = 0 the claim's rule table
(`RSI ≤ 30 gives +1.5`) demands a 1.5 score and one reason, but
`score_opportunity` skips the RSI block (`if rsi:` is false at 0.0) and
returns score 0 with no reasons. -/
theorem score_opportunity_c2_counterexample :
    score_opportunity c2Signal ⟨50, 2, 2⟩ = (0, []) ∧
    claimScore c2Signal = 3/2 ∧
    claimReasons c2Signal = [Reason.oversoldRsi 0] ∧
    score_opportunity c2Signal ⟨50, 2, 2⟩ ≠
      (claimScore c2Signal, claimReasons c2Signal) := by
  have h1 : score_opportunity c2Signal ⟨50, 2, 2⟩ = (0, []) := by
    norm_num [score_opportunity, earningsStep, volumeStep, momentumStep,
      rsiStep, ivStep, affordStep, sentimentStep, c2Signal]
  have h2 : claimScore c2Signal = 3/2 := by
    norm_num [claimScore, claimRules, rulesScore, earnRule, volRule, momRule,
      rsiRuleClaim, ivRule, affordRule, sentRule, optScore, c2Signal,
      List.filterMap_cons]
  have h3 : claimReasons c2Signal = [Reason.oversoldRsi 0] := by
    norm_num [claimReasons, claimRules, rulesReasons, earnRule, volRule,
      momRule, rsiRuleClaim, ivRule, affordRule, sentRule, optReason, c2Signal,
      List.filterMap_cons]
  refine ⟨h1, h2, h3, ?_⟩
  rw [h1, h2, h3]
  intro hcontra
  have := (Prod.mk.injEq _ _ _ _ ▸ hcontra).1
  norm_num at this

-- ===================================================================
-- C4 / C5: the trade-idea generator
-- ===================================================================

/-- The vote tally exactly as claim C4 words it: one bullish/bearish vote
each from momentum (> +3 / < -3), trend classification, sentiment-score
sign, and RSI extremes (RSI < 35 bullish, RSI > 65 bearish) — with no
further proviso on a zero RSI. -/
def claimVotes (data : TickerSignal) : Nat × Nat :=
  let b1 : Nat := if 3 < data.momentum_5d then 1 else 0
  let s1 : Nat := if data.momentum_5d < -3 then 1 else 0
  let b2 : Nat := if data.trend = "bullish" then 1 else 0
  let s2 : Nat := if data.trend = "bearish" then 1 else 0
  let b3 : Nat := if 0 < data.ai_sentiment.score then 1 else 0
  let s3 : Nat := if data.ai_sentiment.score < 0 then 1 else 0
  let b4 : Nat := match data.rsi with
                  | none => 0
                  | some r => if r < 35 then 1 else 0
  let s4 : Nat := match data.rsi with
                  | none => 0
                  | some r => if 65 < r then 1 else 0
  (b1 + b2 + b3 + b4, s1 + s2 + s3 + s4)

/-- Direction from the claimed tally: CALL if bullish votes exceed bearish,
PUT if bearish exceed bullish, STRADDLE on any tie (including 0-0). -/
def claimDirection (data : TickerSignal) : String :=
  let v := claimVotes data
  if v.2 < v.1 then "CALL"
  else if v.1 < v.2 then "PUT"
  else "STRADDLE"

/-- The claimed tally amended by the code's truthiness gate: the RSI votes
require a present *and non-zero* RSI. -/
def claimVotesAmended (data : TickerSignal) : Nat × Nat :=
  let b1 : Nat := if 3 < data.momentum_5d then 1 else 0
  let s1 : Nat := if data.momentum_5d < -3 then 1 else 0
  let b2 : Nat := if data.trend = "bullish" then 1 else 0
  let s2 : Nat := if data.trend = "bearish" then 1 else 0
  let b3 : Nat := if 0 < data.ai_sentiment.score then 1 else 0
  let s3 : Nat := if data.ai_sentiment.score < 0 then 1 else 0
  let b4 : Nat := match data.rsi with
                  | none => 0
                  | some r => if r ≠ 0 ∧ r < 35 then 1 else 0
  let s4 : Nat := match data.rsi with
                  | none => 0
                  | some r => if r ≠ 0 ∧ 65 < r then 1 else 0
  (b1 + b2 + b3 + b4, s1 + s2 + s3 + s4)

/-- Direction from the amended tally. -/
def claimDirectionAmended (data : TickerSignal) : String :=
  let v := claimVotesAmended data
  if v.2 < v.1 then "CALL"
  else if v.1 < v.2 then "PUT"
  else "STRADDLE"

/-- C4 (amended) — the generator's vote tally is exactly the claimed one
with the RSI votes gated on a present non-zero RSI (`if rsi and ...`,
lines 993-994), and every trade idea it returns carries the direction
selected from that tally (CALL / PUT / STRADDLE on strict majority /
strict minority / tie). -/
theorem trade_direction_c4_amended (data : TickerSignal) :
    tradeSignals data = claimVotesAmended data ∧
    (tradeDirection data).1 = claimDirectionAmended data ∧
    (∀ s rs idea, generate_trade_idea data s rs = .ok idea →
      idea.direction = claimDirectionAmended data) := by
  have hmom : (if 3 < data.momentum_5d then ((1 : ℕ), (0 : ℕ))
      else if data.momentum_5d < -3 then (0, 1) else (0, 0)) =
      ((if 3 < data.momentum_5d then 1 else 0),
       (if data.momentum_5d < -3 then 1 else 0)) := by
    split_ifs <;> first | rfl | (exfalso; linarith)
  have htr : (if data.trend = "bullish" then ((1 : ℕ), (0 : ℕ))
      else if data.trend = "bearish" then (0, 1) else (0, 0)) =
      ((if data.trend = "bullish" then 1 else 0),
       (if data.trend = "bearish" then 1 else 0)) := by
    by_cases hA : data.trend = "bullish"
    · rw [if_pos hA, if_pos hA, hA]
      simp
    · rw [if_neg hA, if_neg hA]
      by_cases hB : data.trend = "bearish"
      · rw [if_pos hB, if_pos hB]
      · rw [if_neg hB, if_neg hB]
  have hai : (if 0 < data.ai_sentiment.score then ((1 : ℕ), (0 : ℕ))
      else if data.ai_sentiment.score < 0 then (0, 1) else (0, 0)) =
      ((if 0 < data.ai_sentiment.score then 1 else 0),
       (if data.ai_sentiment.score < 0 then 1 else 0)) := by
    split_ifs <;> first | rfl | (exfalso; linarith)
  have h1 : tradeSignals data = claimVotesAmended data := by
    unfold tradeSignals claimVotesAmended
    dsimp only
    cases data.rsi with
    | none =>
      dsimp only
      rw [hmom, htr, hai]
    | some r =>
      have hr : (if r ≠ 0 ∧ r < 35 then ((1 : ℕ), (0 : ℕ))
          else if r ≠ 0 ∧ 65 < r then (0, 1) else (0, 0)) =
          ((if r ≠ 0 ∧ r < 35 then 1 else 0),
           (if r ≠ 0 ∧ 65 < r then 1 else 0)) := by
        by_cases hA : r ≠ 0 ∧ r < 35
        · rw [if_pos hA, if_pos hA]
          have hB : ¬(r ≠ 0 ∧ 65 < r) := fun hc => by linarith [hA.2, hc.2]
          rw [if_neg hB]
        · rw [if_neg hA, if_neg hA]
          by_cases hB : r ≠ 0 ∧ 65 < r
          · rw [if_pos hB, if_pos hB]
          · rw [if_neg hB, if_neg hB]
      dsimp only
      rw [hmom, htr, hai, hr]
  have h2 : (tradeDirection data).1 = claimDirectionAmended data := by
    unfold tradeDirection claimDirectionAmended
    rw [h1]
    dsimp only
    split_ifs <;> rfl
  refine ⟨h1, h2, ?_⟩
  intro s rs idea h
  unfold generate_trade_idea at h
  cases hee : calculate_entry_exit data data.options with
  | error e =>
    simp only [hee] at h
    exact Except.noConfusion h
  | ok ee =>
    simp only [hee] at h
    have hi := Except.ok.inj h
    subst hi
    exact h2

/-- A signal voting 1 bullish (momentum +5) + 1 bullish (RSI 28). -/
def c4wSignal : TickerSignal :=
  { ticker := "W"
    price := 100
    change_pct := 0
    volume := 100
    vol_surge := 1
    momentum_5d := 5
    rsi := some 28
    trend := "neutral"
    support := 95
    resistance := 105
    earnings_date := none
    days_to_earnings := none
    options := none
    news := []
    ai_sentiment := ⟨0, none, "pending"⟩
    trade_idea := none }

/-- The idea generated on `c4wSignal`. -/
def c4wIdea : TradeIdea :=
  { direction := "CALL"
    bias := "bullish"
    expiry := "1-2 weeks out"
    reasons := []
    entry_exit :=
      { direction := "CALL"
        stock_entry := 199/2
        stock_target := 207/2
        stock_stop := 195/2
        option_entry := "At or below suggested premium"
        option_target := "50-100% gain on premium"
        option_stop := "50% loss on premium" }
    suggested_option := none }

/-- Witness for C4 (amended) at a concrete bullish signal. -/
theorem trade_direction_c4_witness :
    tradeSignals c4wSignal = claimVotesAmended c4wSignal ∧
    (tradeDirection c4wSignal).1 = claimDirectionAmended c4wSignal ∧
    generate_trade_idea c4wSignal 0 [] = .ok c4wIdea ∧
    c4wIdea.direction = claimDirectionAmended c4wSignal := by
  have hgen : generate_trade_idea c4wSignal 0 [] = .ok c4wIdea := by
    norm_num [generate_trade_idea, calculate_entry_exit, tradeDirection,
      tradeSignals, expirySuggestion, expiryFromOptions, pyGT, pyRound,
      roundHalfEven, c4wSignal, c4wIdea] <;> decide
  have h := trade_direction_c4_amended c4wSignal
  exact ⟨h.1, h.2.1, hgen, h.2.2 0 [] c4wIdea hgen⟩

/-- A signal whose only non-neutral field is a stored RSI of exactly 0. -/
def c4zSignal : TickerSignal :=
  { ticker := "Z4"
    price := 10
    change_pct := 0
    volume := 100
    vol_surge := 1
    momentum_5d := 0
    rsi := some 0
    trend := "neutral"
    support := 9
    resistance := 11
    earnings_date := none
    days_to_earnings := none
    options := none
    news := []
    ai_sentiment := ⟨0, none, "pending"⟩
    trade_idea := none }

/-- C4 (counterexample) — at RSI = 0 the claim's tally casts a bullish vote
(0 < 35) and demands CALL, but the code casts no vote (`if rsi and
rsi < 35` is false at 0.0) and returns STRADDLE. -/
theorem trade_direction_c4_counterexample :
    (tradeDirection c4zSignal).1 = "STRADDLE" ∧
    claimDirection c4zSignal = "CALL" ∧
    (generate_trade_idea c4zSignal 0 []).toOption.map (fun i => i.direction) =
      some "STRADDLE" := by
  refine ⟨?_, ?_, ?_⟩
  · norm_num [tradeDirection, tradeSignals, c4zSignal] <;> decide
  · norm_num [claimDirection, claimVotes, c4zSignal] <;> decide
  · norm_num [generate_trade_idea, calculate_entry_exit, tradeDirection,
      tradeSignals, expirySuggestion, expiryFromOptions, pyGT, pyRound,
      roundHalfEven, c4zSignal] <;> decide

/-- A signal with three bearish votes (momentum -10, bearish trend, RSI 70)
and no previously stored trade idea. -/
def c5Signal : TickerSignal :=
  { ticker := "B"
    price := 20
    change_pct := 0
    volume := 100
    vol_surge := 1
    momentum_5d := -10
    rsi := some 70
    trend := "bearish"
    support := 18
    resistance := 22
    earnings_date := none
    days_to_earnings := none
    options := none
    news := []
    ai_sentiment := ⟨0, none, "pending"⟩
    trade_idea := none }

/-- C5 — the claim says the underlying entry/target/stop are computed from
the idea's *own* direction; but `calculate_entry_exit` reads the direction
from `data.get("trade_idea", {}).get("direction", "CALL")` (line 725), the
previously stored idea, defaulting to CALL.  On the first generation the
vote tally yields PUT, yet the levels inside the same returned idea are the
CALL formulas: entry 19.70 = 20·(1 − 1.5%) (dip-buy, RSI 70 > 50) instead
of the claimed PUT bounce-buy entry 20.10 = 20·(1 + 0.5%). -/
theorem entry_exit_c5_bug :
    (generate_trade_idea c5Signal 0 []).toOption.map
        (fun i => (i.direction, i.entry_exit.direction, i.entry_exit.stock_entry,
                   i.entry_exit.stock_target, i.entry_exit.stock_stop)) =
      some ("PUT", "CALL", 197/10, 207/10, 195/10) ∧
    pyRound ((20 : ℚ) * (1 + (1/2) / 100)) 2 = 201/10 := by
  constructor
  · norm_num [generate_trade_idea, calculate_entry_exit, tradeDirection,
      tradeSignals, expirySuggestion, expiryFromOptions, pyGT, pyRound,
      roundHalfEven, c5Signal]
    simp
    exact ⟨_, rfl, rfl, rfl, rfl, rfl, rfl⟩
  · norm_num [pyRound, roundHalfEven]

/-- A placeholder generated idea for category-partition inputs. -/
def c6Idea : TradeIdea :=
  { direction := "STRADDLE"
    bias := "neutral"
    expiry := "1-2 weeks out"
    reasons := []
    entry_exit :=
      { direction := "CALL"
        stock_entry := 10
        stock_target := 11
        stock_stop := 9
        option_entry := "At or below suggested premium"
        option_target := "50-100% gain on premium"
        option_stop := "50% loss on premium" }
    suggested_option := none }

/-- A result whose earnings are today (`days_to_earnings = 0`) with 6%
momentum. -/
def c6Result : ScoredResult :=
  { signal :=
      { ticker := "E"
        price := 10
        change_pct := 0
        volume := 100
        vol_surge := 1
        momentum_5d := 6
        rsi := none
        trend := "neutral"
        support := 9
        resistance := 11
        earnings_date := some 0
        days_to_earnings := some 0
        options := none
        news := []
        ai_sentiment := ⟨0, none, "pending"⟩
        trade_idea := some c6Idea }
    score := 3
    reasons := []
    trade_idea := c6Idea }

/-- The earnings partition as the spec and claim C6 state it:
`days_to_earnings ∈ [0, 7]`. -/
def specEarningsPlays (results : List ScoredResult) : List ScoredResult :=
  results.filter (fun r =>
    match r.signal.days_to_earnings with
    | some d => decide (0 ≤ d ∧ d ≤ 7)
    | none => false)

/-- C6 — the claim (and the spec) put `days_to_earnings ∈ [0, 7]` into
`earnings_plays`, and the source even spells the range `0 <=` (line 1142);
but the truthiness guard `r.get('days_to_earnings') and ...` evaluates 0 as
falsy, so an earnings-today result is dropped from `earnings_plays` — and,
no longer excluded, it leaks into `momentum_plays`. -/
theorem categories_c6_bug :
    earnings_plays [c6Result] = [] ∧
    specEarningsPlays [c6Result] = [c6Result] ∧
    momentum_plays [c6Result] = [c6Result] := by
  have h1 : earnings_plays [c6Result] = [] := by
    simp [earnings_plays, c6Result, List.filter]
  refine ⟨h1, ?_, ?_⟩
  · simp [specEarningsPlays, c6Result, List.filter]
  · unfold momentum_plays
    rw [h1]
    simp [c6Result, List.filter]
    norm_num

/-- Helper: with fewer than 15 bars the stored signal has a null RSI (and,
being fresh from `get_stock_data`, no stored trade idea). -/
theorem get_stock_data_short_rsi (f : ℚ → ℚ) (t : String) (st : StockHandle)
    (cfg : Config) (d : TickerSignal)
    (h1 : get_stock_data f t st cfg = some d)
    (h2 : st.hist.length < 15) :
    d.rsi = none ∧ d.trade_idea = none := by
  have hlen : (st.hist.map (fun b => b.close)).length < 14 + 1 := by
    simpa using h2
  have hcr : calculate_rsi (st.hist.map (fun b => b.close)) 14 = none := by
    unfold calculate_rsi
    rw [if_pos hlen]
  simp only [get_stock_data] at h1
  by_cases h5 : st.hist.length < 5
  · rw [if_pos h5] at h1
    exact Option.noConfusion h1
  · rw [if_neg h5] at h1
    by_cases hp : cfg.max_stock_price < (st.hist.getLastD ⟨0, 0, 0, 0⟩).close
    · rw [if_pos hp] at h1
      exact Option.noConfusion h1
    · rw [if_neg hp] at h1
      have hd := Option.some_inj.mp h1
      subst hd
      refine ⟨?_, rfl⟩
      simp only [hcr]

/-- Helper: a signal with no RSI and no stored trade idea makes the trade
generator raise `TypeError` (CALL-default branch compares `None > 50`). -/
theorem generate_trade_idea_rsi_none (d : TickerSignal) (s : ℚ)
    (rs : List Reason) (hr : d.rsi = none) (ht : d.trade_idea = none) :
    generate_trade_idea d s rs = .error .typeError := by
  unfold generate_trade_idea calculate_entry_exit
  rw [ht, hr]
  simp [pyGT]

/-- C10 — for a ticker whose history has fewer than 15 bars (so
`calculate_rsi` returns `None`), a signal that passes the fetch filters and
the `min_score` gate is still dropped from the run's results: the
CALL-default branch of `calculate_entry_exit` compares the null RSI against
50, raising `TypeError` inside `generate_trade_idea`, which the per-ticker
handler (lines 1101-1102) converts into exclusion. -/
theorem rsi_none_excluded_c10 (f : ℚ → ℚ) (cfg : Config) (st : StockHandle)
    (t : String) (d : TickerSignal)
    (h1 : get_stock_data f t st cfg = some d)
    (h2 : st.hist.length < 15)
    (h3 : cfg.min_score ≤ (score_opportunity d cfg).1) :
    d.rsi = none ∧
    generate_trade_idea d (score_opportunity d cfg).1
      (score_opportunity d cfg).2 = .error .typeError ∧
    processTicker f cfg st t = none := by
  obtain ⟨hr, ht⟩ := get_stock_data_short_rsi f t st cfg d h1 h2
  have hgen := generate_trade_idea_rsi_none d (score_opportunity d cfg).1
    (score_opportunity d cfg).2 hr ht
  refine ⟨hr, hgen, ?_⟩
  unfold processTicker
  simp only [h1]
  rw [if_pos h3, hgen]

/-- A flat 5-bar history (too short for RSI-14, long enough to pass the
5-bar gate). -/
def c10Stock : StockHandle :=
  { hist := [⟨10, 100, 10, 10⟩, ⟨10, 100, 10, 10⟩, ⟨10, 100, 10, 10⟩,
             ⟨10, 100, 10, 10⟩, ⟨10, 100, 10, 10⟩]
    optionsDates := []
    chainCalls := fun _ => []
    chainPuts := fun _ => []
    earnings := none
    news := [] }

/-- The signal `get_stock_data` builds from `c10Stock`. -/
def c10Signal : TickerSignal :=
  { ticker := "Y"
    price := 10
    change_pct := 0
    volume := 100
    vol_surge := 1
    momentum_5d := 0
    rsi := none
    trend := "neutral"
    support := 10
    resistance := 10
    earnings_date := none
    days_to_earnings := none
    options := none
    news := []
    ai_sentiment := ⟨0, none, "pending"⟩
    trade_idea := none }

/-- Witness for C10 at the concrete 5-bar ticker. -/
theorem rsi_none_excluded_c10_witness :
    get_stock_data (fun q => q) "Y" c10Stock ⟨50, 2, 0⟩ = some c10Signal ∧
    c10Stock.hist.length < 15 ∧
    (⟨50, 2, 0⟩ : Config).min_score ≤
      (score_opportunity c10Signal ⟨50, 2, 0⟩).1 ∧
    c10Signal.rsi = none ∧
    generate_trade_idea c10Signal (score_opportunity c10Signal ⟨50, 2, 0⟩).1
      (score_opportunity c10Signal ⟨50, 2, 0⟩).2 = .error .typeError ∧
    processTicker (fun q => q) ⟨50, 2, 0⟩ c10Stock "Y" = none := by
  have h1 : get_stock_data (fun q => q) "Y" c10Stock ⟨50, 2, 0⟩ =
      some c10Signal := by
    norm_num [get_stock_data, calculate_rsi, get_options_data, pyRound,
      pyTrunc, roundHalfEven, c10Stock, c10Signal, List.getLastD]
  have h3 : (⟨50, 2, 0⟩ : Config).min_score ≤
      (score_opportunity c10Signal ⟨50, 2, 0⟩).1 := by
    norm_num [score_opportunity, earningsStep, volumeStep, momentumStep,
      rsiStep, ivStep, affordStep, sentimentStep, c10Signal]
  have h := rsi_none_excluded_c10 (fun q => q) ⟨50, 2, 0⟩ c10Stock "Y"
    c10Signal h1 (by decide) h3
  exact ⟨h1, by decide, h3, h.1, h.2.1, h.2.2⟩
